import Mathlib

/-!
Shallow embedding of the goimage image-hosting backend core
(`internal/model/response.go`, `internal/service/*.go`,
`internal/handler/image_handler.go`).

Byte streams are `List Nat` (each element one byte), strings are Lean
`String`, Go `int`/`int64` are `Int` with explicit two's-complement
wrapping where overflow can occur, and time is a small record of the
fields the code reads.  File-system and image-library effects
(`os.WriteFile`, `json.Unmarshal`, `webp.Encode`, `storage.Save`, ...)
are passed in as explicit oracle arguments, so every code path of the
orchestration logic is a total function of its inputs.
-/

namespace GoImage

/-- Image record (`model.Image`): the durable unit stored in the metadata
table.  `createdAt` is the creation time as a numeric timestamp. -/
structure Image where
  id : String
  url : String
  originalFormat : String
  originalSize : Int
  processedSize : Int
  width : Int
  height : Int
  createdAt : Int
  filename : String
  storagePath : String
deriving Repr, DecidableEq, Inhabited

/-- List item produced by `ImageService.ListImages` (`model.ImageListItem`). -/
structure ImageListItem where
  id : String
  url : String
  originalFormat : String
  processedSize : Int
  width : Int
  height : Int
  createdAt : Int
deriving Repr, DecidableEq, Inhabited

/-- Projection of an `Image` to the list item returned by `ListImages`. -/
def toListItem (img : Image) : ImageListItem :=
  { id := img.id
    url := img.url
    originalFormat := img.originalFormat
    processedSize := img.processedSize
    width := img.width
    height := img.height
    createdAt := img.createdAt }

/-- The in-memory table `map[string]*model.Image`, as an association list
keyed by the image identifier. -/
def Table := List (String × Image)
deriving DecidableEq, Inhabited

/-- Lookup in the table (`s.images[id]`). -/
def lookupKey (k : String) : Table → Option Image
  | [] => none
  | (k1, v) :: rest => if k1 = k then some v else lookupKey k rest

/-- Go map assignment `s.images[img.ID] = img`: replaces the entry when the
key is present, otherwise appends a fresh entry. -/
def upsert (k : String) (v : Image) : Table → Table
  | [] => [(k, v)]
  | (k1, v1) :: rest =>
      if k1 = k then (k, v) :: rest else (k1, v1) :: upsert k v rest

/-- Go map `delete(s.images, id)`: removes the entry for the key. -/
def eraseKey (k : String) : Table → Table
  | [] => []
  | (k1, v1) :: rest =>
      if k1 = k then rest else (k1, v1) :: eraseKey k rest

/-- Number of entries, `len(s.images)`. -/
def tableCount (t : Table) : Nat := t.length

/-- The metadata store (`MetadataStore`): the in-memory table plus the
content of the durable `metadata.json` file, parsed (`none` when the file
does not exist).  The single mutex serializes every operation, so the
embedding treats each operation as one atomic step on this state. -/
structure MetadataStore where
  images : Table
  disk : Option Table
deriving DecidableEq, Inhabited

/-- `MetadataStore.Add`: mutates the in-memory table, then `saveLocked`
rewrites the whole table to the file while still holding the lock.
`saveOk` is the oracle for the file write (`MarshalIndent`/`WriteFile`/
`Rename`): on `.error e` the disk keeps its previous content and the
error is returned, with the in-memory mutation already applied. -/
def mAdd (saveOk : Except String Unit) (st : MetadataStore) (img : Image) :
    Except String Unit × MetadataStore :=
  let images1 := upsert img.id img st.images
  match saveOk with
  | .ok _ => (.ok (), ⟨images1, some images1⟩)
  | .error e => (.error e, ⟨images1, st.disk⟩)

/-- `MetadataStore.Delete`: removes the entry, then `saveLocked` rewrites
the whole table to the file under the same lock. -/
def mDelete (saveOk : Except String Unit) (st : MetadataStore) (id : String) :
    Except String Unit × MetadataStore :=
  let images1 := eraseKey id st.images
  match saveOk with
  | .ok _ => (.ok (), ⟨images1, some images1⟩)
  | .error e => (.error e, ⟨images1, st.disk⟩)

/-- State of the metadata file seen by `NewMetadataStore` at startup:
missing, unreadable (a read error other than not-exist), or readable with
some content. -/
inductive FileState where
  | missing
  | readError
  | content (s : String)
deriving Repr, DecidableEq

/-- `NewMetadataStore` + `loadLocked`: a missing file (`os.IsNotExist`) is
ignored and yields the empty table; any other read failure, or a
`json.Unmarshal` failure (`parse s = none`), aborts construction.
`parse` is the oracle for `json.Unmarshal`. -/
def newMetadataStore (file : FileState) (parse : String → Option Table) :
    Except Unit MetadataStore :=
  match file with
  | .missing => .ok ⟨[], none⟩
  | .readError => .error ()
  | .content s =>
      match parse s with
      | none => .error ()
      | some t => .ok ⟨t, some t⟩

/-- `detectMimeFromHeader`: sniffs the MIME type from the leading magic
bytes.  Fewer than 4 bytes, or an unrecognized magic, yields
`application/octet-stream`. -/
def detectMimeFromHeader (header : List Nat) : String :=
  if header.length < 4 then "application/octet-stream"
  else if header.getD 0 0 = 0xFF && header.getD 1 0 = 0xD8 &&
      header.getD 2 0 = 0xFF then "image/jpeg"
  else if decide (header.length ≥ 8) && header.getD 0 0 = 0x89 &&
      header.getD 1 0 = 0x50 && header.getD 2 0 = 0x4E &&
      header.getD 3 0 = 0x47 && header.getD 4 0 = 0x0D &&
      header.getD 5 0 = 0x0A && header.getD 6 0 = 0x1A &&
      header.getD 7 0 = 0x0A then "image/png"
  else if decide (header.length ≥ 12) && header.getD 0 0 = 0x52 &&
      header.getD 1 0 = 0x49 && header.getD 2 0 = 0x46 &&
      header.getD 3 0 = 0x46 && header.getD 8 0 = 0x57 &&
      header.getD 9 0 = 0x45 && header.getD 10 0 = 0x42 &&
      header.getD 11 0 = 0x50 then "image/webp"
  else "application/octet-stream"

/-- `ValidateMimeType`: linear search of the configured allow-list. -/
def validateMimeType (mimeType : String) (allowedTypes : List String) : Bool :=
  allowedTypes.any (fun t => t = mimeType)

/-- `mimeTypeToFormat`: MIME type to format name. -/
def mimeTypeToFormat (mimeType : String) : String :=
  if mimeType = "image/jpeg" then "jpeg"
  else if mimeType = "image/png" then "png"
  else if mimeType = "image/webp" then "webp"
  else "unknown"

/-- The geometric transforms of the `imaging` library used by
`fixOrientation`, plus the identity (returning the image unchanged). -/
inductive Transform where
  | ident
  | flipH
  | rotate180
  | flipV
  | transpose
  | rotate270
  | transverse
  | rotate90
deriving Repr, DecidableEq

/-- `fixOrientation`: the transform applied for an EXIF orientation value.
`exifOrient = none` abstracts every non-fatal failure of the EXIF chain
(`exif.Decode`, `x.Get(exif.Orientation)`, `orientTag.Int(0)`), each of
which returns the image unmodified; `some o` is a successfully read
orientation value, dispatched by the `switch` (any value outside 2..8,
including 1, falls to the default and leaves the image unmodified). -/
def fixOrientation (exifOrient : Option Int) : Transform :=
  match exifOrient with
  | none => .ident
  | some o =>
      if o = 2 then .flipH
      else if o = 3 then .rotate180
      else if o = 4 then .flipV
      else if o = 5 then .transpose
      else if o = 6 then .rotate270
      else if o = 7 then .transverse
      else if o = 8 then .rotate90
      else .ident

/-- `decodeImage`: the format tag returned alongside the decoded image,
dispatched on the sniffed MIME type. -/
def decodeFormat (mimeType : String) : String :=
  if mimeType = "image/jpeg" then "jpeg"
  else if mimeType = "image/png" then "png"
  else if mimeType = "image/webp" then "webp"
  else ""

/-- Orientation handling of `ImageProcessor.Process`: `fixOrientation` is
invoked only when the decoded format is `jpeg`; PNG and WebP images pass
through with no transform. -/
def processOrientation (mimeType : String) (exifOrient : Option Int) :
    Transform :=
  if decodeFormat mimeType = "jpeg" then fixOrientation exifOrient
  else .ident

/-- `NewImageProcessor`: an out-of-range quality is replaced by the
default 75 at construction time. -/
def newImageProcessorQuality (quality : Int) : Int :=
  if quality < 1 || quality > 100 then 75 else quality

/-- Errors returned by `ImageService` operations.  In the Go code these
are `fmt.Errorf` values distinguished only by their message text; the
constructors record which `return` site produced the error and the
wrapped inner message. -/
inductive SvcErr where
  | invalidFileType (mime : String)
  | fileTooLarge (size maxSize : Int)
  | processingFailed (inner : String)
  | storageFailed (inner : String)
  | metadataFailed (inner : String)
  | notFound (id : String)
  | deleteFileFailed (inner : String)
  | deleteMetaFailed (inner : String)
deriving Repr, DecidableEq

/-- The message text each `fmt.Errorf` site produces (`%s`/`%d`/`%w`
formatting spelled out). -/
def errMessage : SvcErr → String
  | .invalidFileType mime => "invalid file type: " ++ mime
  | .fileTooLarge size maxSize =>
      "file too large: " ++ toString size ++ " bytes (max: " ++
        toString maxSize ++ ")"
  | .processingFailed inner => "failed to process image: " ++ inner
  | .storageFailed inner => "failed to save file: " ++ inner
  | .metadataFailed inner => "failed to save metadata: " ++ inner
  | .notFound id => "image not found: " ++ id
  | .deleteFileFailed inner => "failed to delete file: " ++ inner
  | .deleteMetaFailed inner => "failed to delete metadata: " ++ inner

/-- `containsImpl` from the handler: byte-window scan for a substring
occurrence (modelled on the character list of the ASCII messages). -/
def goContainsImpl (s sub : List Char) : Bool :=
  (List.range (s.length - sub.length + 1)).any
    (fun i => (s.drop i).take sub.length = sub)

/-- `contains` from the handler. -/
def goContains (s sub : String) : Bool :=
  decide (sub.data.length ≤ s.data.length) &&
    (s = sub || (decide (0 < s.data.length) &&
      goContainsImpl s.data sub.data))

/-- Error codes from `model/response.go`. -/
def CodeNotFound : Int := 404
def CodeInternalError : Int := 500
def CodeInvalidFileType : Int := 1001
def CodeFileTooLarge : Int := 1002
def CodeProcessingFailed : Int := 1003
def CodeStorageFailed : Int := 1004

/-- `ImageHandler.Upload` error classification: the handler inspects the
error message string with `contains` to pick the response code. -/
def classifyUpload (errMsg : String) : Int :=
  if goContains errMsg "invalid file type" then CodeInvalidFileType
  else if goContains errMsg "file too large" then CodeFileTooLarge
  else if goContains errMsg "failed to process" then CodeProcessingFailed
  else if goContains errMsg "failed to save" then CodeStorageFailed
  else CodeInternalError

/-- `ImageHandler.Get` / `ImageHandler.Delete` error classification: the
handlers match the substring `not found` in the message. -/
def classifyLookup (errMsg : String) : Int :=
  if goContains errMsg "not found" then CodeNotFound
  else CodeInternalError

/-- The `image` section of the configuration (`config.ImageConfig`). -/
structure Config where
  allowedTypes : List String
  maxSize : Int
deriving Repr, DecidableEq

/-- `ProcessResult` from the image processor. -/
structure ProcResult where
  data : List Nat
  width : Int
  height : Int
deriving Repr, DecidableEq

/-- The fields of `time.Now()` the upload path reads. -/
structure GoTime where
  year : Int
  month : Int
  unix : Int
deriving Repr, DecidableEq

/-- Result value of a successful upload (`model.UploadResult`). -/
structure UploadResult where
  id : String
  url : String
  originalFormat : String
  originalSize : Int
  processedSize : Int
  width : Int
  height : Int
  createdAt : Int
deriving Repr, DecidableEq

/-- Combined mutable state the service touches: the metadata store and the
storage backend's objects (key, content). -/
structure SvcState where
  meta : MetadataStore
  stor : List (String × List Nat)
deriving DecidableEq, Inhabited

/-- Two-digit formatting `%02d` of the month component. -/
def pad2 (n : Int) : String :=
  if 0 ≤ n && n < 10 then "0" ++ toString n else toString n

/-- The storage key `fmt.Sprintf("%d/%02d/%s", year, month, filename)`. -/
def storagePathOf (t : GoTime) (filename : String) : String :=
  toString t.year ++ "/" ++ pad2 t.month ++ "/" ++ filename

/-- Removes the first storage object with the given key
(`storage.Delete` on the local filesystem removes that one path). -/
def removeFirst (k : String) : List (String × List Nat) → List (String × List Nat)
  | [] => []
  | (k1, v1) :: rest =>
      if k1 = k then rest else (k1, v1) :: removeFirst k rest

/-- `ImageService.Upload`.  The input stream is already buffered into
`data` (`io.ReadAll`).  Oracles: `proc` for `processor.Process`, `saveRes`
for `storage.Save` (yielding the public URL), `metaSave` for the file
write inside `metadata.Add`, `compDelOk` for the compensating
`storage.Delete` when the metadata write fails (its own failure is
ignored), `t` for `time.Now()` and `id` for `uuid.New()`. -/
def upload (cfg : Config) (proc : Except String ProcResult)
    (saveRes : Except String String) (metaSave : Except String Unit)
    (compDelOk : Bool) (t : GoTime) (id : String)
    (data : List Nat) (origSize : Int) (st : SvcState) :
    Except SvcErr UploadResult × SvcState :=
  let mimeType := detectMimeFromHeader data
  if !validateMimeType mimeType cfg.allowedTypes then
    (.error (.invalidFileType mimeType), st)
  else if (data.length : Int) > cfg.maxSize then
    (.error (.fileTooLarge data.length cfg.maxSize), st)
  else
    match proc with
    | .error e => (.error (.processingFailed e), st)
    | .ok result =>
        let filename := id ++ ".webp"
        let sp := storagePathOf t filename
        match saveRes with
        | .error e => (.error (.storageFailed e), st)
        | .ok url =>
            let stor1 := (sp, result.data) :: st.stor
            let img : Image :=
              { id := id
                url := url
                originalFormat := mimeTypeToFormat mimeType
                originalSize := origSize
                processedSize := (result.data.length : Int)
                width := result.width
                height := result.height
                createdAt := t.unix
                filename := filename
                storagePath := sp }
            match mAdd metaSave st.meta img with
            | (.error e, meta1) =>
                let stor2 := if compDelOk then removeFirst sp stor1 else stor1
                (.error (.metadataFailed e), ⟨meta1, stor2⟩)
            | (.ok _, meta1) =>
                (.ok
                  { id := img.id
                    url := img.url
                    originalFormat := img.originalFormat
                    originalSize := img.originalSize
                    processedSize := img.processedSize
                    width := img.width
                    height := img.height
                    createdAt := img.createdAt },
                  ⟨meta1, stor1⟩)

/-- `ImageService.GetImage`. -/
def getImage (id : String) (st : SvcState) : Except SvcErr Image :=
  match lookupKey id st.meta.images with
  | none => .error (.notFound id)
  | some img => .ok img

/-- `filepath.Ext`: scans the path backwards; the suffix from the last
dot of the final path element, or the empty string when that element has
no dot.  `acc` carries the characters already passed, in order. -/
def extLoop : List Char → List Char → String
  | [], _ => ""
  | c :: rest, acc =>
      if c = '/' then ""
      else if c = '.' then String.mk (c :: acc)
      else extLoop rest (c :: acc)

/-- `filepath.Ext` over the character list of the path. -/
def goPathExt (p : String) : String := extLoop p.data.reverse []

/-- Splitting a character list at every occurrence of a separator; the
result always has at least one (possibly empty) piece. -/
def splitChar (sep : Char) : List Char → List (List Char)
  | [] => [[]]
  | c :: rest =>
      match splitChar sep rest with
      | [] => [[c]]
      | h :: t => if c = sep then [] :: h :: t else (c :: h) :: t

/-- `filepath.SplitList`: the empty string yields the empty list, any
other string is split on the list separator character `:`. -/
def goSplitList (p : String) : List String :=
  if p = "" then [] else (splitChar ':' p.data).map String.mk

/-- `isValidStoragePath`: non-empty, `SplitList` non-empty (always true
for a non-empty path), and a recognized image extension. -/
def isValidStoragePath (path : String) : Bool :=
  if path = "" then false
  else if (goSplitList path).length = 0 then false
  else
    let ext := goPathExt path
    ext = ".webp" || ext = ".jpg" || ext = ".jpeg" || ext = ".png"

/-- Storage-key resolution at the start of `DeleteImage`: prefer the
persisted `StoragePath`; when it is empty, strip the `/images/` prefix
from the URL (`len(URL) > len(prefix)` strictly), else stay empty. -/
def resolvedKey (img : Image) : String :=
  if img.storagePath = "" then
    if img.url ≠ "" && decide (8 < img.url.length) &&
        img.url.take 8 = "/images/" then
      img.url.drop 8
    else ""
  else img.storagePath

/-- The guard `storagePath == "" || storagePath == "/" ||
!isValidStoragePath(storagePath)` deciding whether `DeleteImage` skips
the storage deletion. -/
def skipStorageDelete (sp : String) : Bool :=
  sp = "" || sp = "/" || !isValidStoragePath sp

/-- Outcome of `storage.Delete` as observed through `os.IsNotExist`. -/
inductive StorDelErr where
  | notExist
  | other (msg : String)
deriving Repr, DecidableEq

/-- `ImageService.DeleteImage`.  `sdel` is the oracle for
`storage.Delete` (`none` = success), `msave` the oracle for the file
write inside `metadata.Delete`. -/
def deleteImage (sdel : Option StorDelErr) (msave : Except String Unit)
    (id : String) (st : SvcState) : Except SvcErr Unit × SvcState :=
  match lookupKey id st.meta.images with
  | none => (.error (.notFound id), st)
  | some img =>
      let sp := resolvedKey img
      if skipStorageDelete sp then
        match mDelete msave st.meta id with
        | (.error e, meta1) => (.error (.deleteMetaFailed e), ⟨meta1, st.stor⟩)
        | (.ok _, meta1) => (.ok (), ⟨meta1, st.stor⟩)
      else
        match sdel with
        | some (.other e) => (.error (.deleteFileFailed e), st)
        | _ =>
            let stor1 := removeFirst sp st.stor
            match mDelete msave st.meta id with
            | (.error e, meta1) => (.error (.deleteMetaFailed e), ⟨meta1, stor1⟩)
            | (.ok _, meta1) => (.ok (), ⟨meta1, stor1⟩)

/-- Paginated response (`model.PaginatedList`). -/
structure PaginatedList where
  items : List ImageListItem
  total : Int
  page : Int
  pageSize : Int
  totalPages : Int
deriving Repr, DecidableEq

/-- Two's-complement wrap of Go 64-bit `int` arithmetic. -/
def wrap64 (n : Int) : Int := (n + 2 ^ 63) % 2 ^ 64 - 2 ^ 63

/-- The clamp `if page < 1 { page = 1 }`. -/
def clampPage (page : Int) : Int := if page < 1 then 1 else page

/-- The clamp `if pageSize < 1 || pageSize > 100 { pageSize = 20 }`. -/
def clampSize (pageSize : Int) : Int :=
  if pageSize < 1 || pageSize > 100 then 20 else pageSize

/-- `ImageService.ListImages`, applied to the time-descending list
`allImages` produced by `metadata.List()`.  Go `int` arithmetic wraps at
64 bits, and the slice expression `allImages[start:end]` panics
(modelled as `none`) when its bounds are invalid — reachable when
`(page-1)*pageSize` overflows to a negative value. -/
def listImages (allImages : List Image) (page pageSize : Int) :
    Option PaginatedList :=
  let page1 := clampPage page
  let pageSize1 := clampSize pageSize
  let total := (allImages.length : Int)
  let start0 := wrap64 ((page1 - 1) * pageSize1)
  let endI0 := wrap64 (start0 + pageSize1)
  let start1 := if start0 ≥ total then total else start0
  let endI1 := if endI0 > total then total else endI0
  if 0 ≤ start1 && start1 ≤ endI1 && endI1 ≤ total then
    let items :=
      ((allImages.drop start1.toNat).take (endI1.toNat - start1.toNat)).map
        toListItem
    let totalPages :=
      total / pageSize1 + (if total % pageSize1 > 0 then 1 else 0)
    some
      { items := items
        total := total
        page := page1
        pageSize := pageSize1
        totalPages := totalPages }
  else none

/-- Sample image record used by concrete witnesses. -/
def sampleImage : Image :=
  { id := "11111111-1111-1111-1111-111111111111"
    url := "/images/2024/12/11111111-1111-1111-1111-111111111111.webp"
    originalFormat := "jpeg"
    originalSize := 2048
    processedSize := 512
    width := 40
    height := 30
    createdAt := 1700000000
    filename := "11111111-1111-1111-1111-111111111111.webp"
    storagePath := "2024/12/11111111-1111-1111-1111-111111111111.webp" }

/-- Sample image whose storage key cannot be resolved: empty persisted
key and a URL without the `/images/` prefix. -/
def orphanImage : Image :=
  { id := "22222222-2222-2222-2222-222222222222"
    url := "http://cdn.example/x.webp"
    originalFormat := "png"
    originalSize := 1024
    processedSize := 256
    width := 8
    height := 8
    createdAt := 1700000001
    filename := "x.webp"
    storagePath := "" }

/-! Helper lemmas shared between the claim theorems. -/

theorem lookupKey_upsert (k : String) (v : Image) (t : Table) :
    lookupKey k (upsert k v t) = some v := by
  induction t with
  | nil => simp [upsert, lookupKey]
  | cons hd tl ih =>
      obtain ⟨k1, v1⟩ := hd
      by_cases h : k1 = k
      · simp [upsert, lookupKey, h]
      · simp [upsert, lookupKey, h, ih]

theorem length_upsert (k : String) (v : Image) (t : Table) :
    (upsert k v t).length =
      if (lookupKey k t).isSome then t.length else t.length + 1 := by
  induction t with
  | nil => simp [upsert, lookupKey]
  | cons hd tl ih =>
      obtain ⟨k1, v1⟩ := hd
      by_cases h : k1 = k
      · simp [upsert, lookupKey, h]
      · simp only [upsert, lookupKey, h, if_false, List.length_cons, ih]
        split <;> simp

theorem wrap64_id (n : Int) (h1 : -(2 ^ 63) ≤ n) (h2 : n < 2 ^ 63) :
    wrap64 n = n := by
  unfold wrap64
  rw [Int.emod_eq_of_lt (by omega) (by omega)]
  omega

theorem listWindow {α : Type} (L : List α) (s p : Nat) :
    (L.drop (min s L.length)).take (min (s + p) L.length - min s L.length) =
      (L.drop s).take p := by
  rcases le_or_lt L.length s with h | h
  · rw [min_eq_right h, List.drop_length, List.drop_eq_nil_of_le h,
      List.take_nil, List.take_nil]
  · rw [min_eq_left (le_of_lt h)]
    rcases le_or_lt (s + p) L.length with h2 | h2
    · rw [min_eq_left h2, Nat.add_sub_cancel_left]
    · rw [min_eq_right (le_of_lt h2)]
      have hl : (L.drop s).length = L.length - s := List.length_drop s L
      rw [List.take_of_length_le (by omega), List.take_of_length_le (by omega)]

theorem ceil_div_eq (m q : Nat) (hq : 0 < q) :
    m / q + (if 0 < m % q then 1 else 0) = (m + q - 1) / q := by
  obtain ⟨k, r, hr, rfl⟩ : ∃ k r, r < q ∧ m = q * k + r :=
    ⟨m / q, m % q, Nat.mod_lt _ hq, (Nat.div_add_mod m q).symm⟩
  have hmod : (q * k + r) % q = r := by
    rw [Nat.mul_add_mod, Nat.mod_eq_of_lt hr]
  have hck : k * q = q * k := by ring
  have hdiv : (q * k + r) / q = k := by
    have h1 : q * k + r = r + k * q := by omega
    rw [h1, Nat.add_mul_div_right _ _ hq, Nat.div_eq_of_lt hr]
    omega
  rcases Nat.eq_zero_or_pos r with hr0 | hr0
  · subst hr0
    have h2 : q * k + 0 + q - 1 = (q - 1) + k * q := by omega
    rw [hmod, hdiv, h2, Nat.add_mul_div_right _ _ hq,
      Nat.div_eq_of_lt (by omega)]
    simp
  · have h2 : q * k + r + q - 1 = (r - 1) + (k + 1) * q := by
      have hc1 : (k + 1) * q = k * q + q := by ring
      omega
    rw [hmod, hdiv, h2, Nat.add_mul_div_right _ _ hq,
      Nat.div_eq_of_lt (by omega)]
    simp [hr0]

theorem clampPage_idem (page : Int) :
    clampPage (clampPage page) = clampPage page := by
  unfold clampPage; split <;> simp

theorem clampSize_idem (pageSize : Int) :
    clampSize (clampSize pageSize) = clampSize pageSize := by
  unfold clampSize; split <;> simp

theorem clampPage_ge (page : Int) : 1 ≤ clampPage page := by
  unfold clampPage; split <;> omega

theorem clampSize_bounds (pageSize : Int) :
    1 ≤ clampSize pageSize ∧ clampSize pageSize ≤ 100 := by
  unfold clampSize
  split
  · exact ⟨by norm_num, by norm_num⟩
  · next h =>
      simp only [Bool.or_eq_true, decide_eq_true_eq, not_or] at h
      omega

theorem listImages_window_aux (L : List Image) (p1 ps : Int)
    (hcp : clampPage p1 = p1) (hcs : clampSize ps = ps)
    (hp1 : 1 ≤ p1) (hps1 : 1 ≤ ps)
    (hov : (p1 - 1) * ps + ps < 2 ^ 63) :
    listImages L p1 ps =
      some
        { items := ((L.drop ((p1 - 1) * ps).toNat).take ps.toNat).map toListItem
          total := (L.length : Int)
          page := p1
          pageSize := ps
          totalPages := ((L.length + ps.toNat - 1) / ps.toNat : Nat) } := by
  have hX0 : 0 ≤ (p1 - 1) * ps := mul_nonneg (by omega) (by omega)
  have hw1 : wrap64 ((p1 - 1) * ps) = (p1 - 1) * ps :=
    wrap64_id _ (by omega) (by omega)
  have hw2 : wrap64 ((p1 - 1) * ps + ps) = (p1 - 1) * ps + ps :=
    wrap64_id _ (by omega) (by omega)
  simp only [listImages, hcp, hcs, hw1, hw2]
  generalize hX : (p1 - 1) * ps = X
  rw [hX] at hX0 hov
  have ha : (if X ≥ ((L.length : Int)) then ((L.length : Int)) else X).toNat =
      min X.toNat L.length := by
    split <;> omega
  have hb : (if X + ps > ((L.length : Int)) then ((L.length : Int))
      else X + ps).toNat = min (X.toNat + ps.toNat) L.length := by
    split <;> omega
  have hg : (decide (0 ≤ if X ≥ ((L.length : Int)) then ((L.length : Int))
        else X) &&
      decide ((if X ≥ ((L.length : Int)) then ((L.length : Int)) else X) ≤
        if X + ps > ((L.length : Int)) then ((L.length : Int)) else X + ps) &&
      decide ((if X + ps > ((L.length : Int)) then ((L.length : Int))
        else X + ps) ≤ ((L.length : Int)))) = true := by
    simp only [Bool.and_eq_true, decide_eq_true_eq]
    refine ⟨⟨?_, ?_⟩, ?_⟩ <;> (split <;> (try split) <;> omega)
  rw [if_pos hg]
  refine congrArg some ?_
  congr 1
  · rw [ha, hb, listWindow]
  · have hq : ∃ q : Nat, ps = (q : Int) :=
      ⟨ps.toNat, (Int.toNat_of_nonneg (by omega)).symm⟩
    obtain ⟨q, rfl⟩ := hq
    rw [Int.toNat_natCast, ← Int.ofNat_ediv, ← Int.ofNat_emod]
    simp only [gt_iff_lt, Int.natCast_pos]
    rw [← ceil_div_eq L.length q (by omega)]
    push_cast
    rfl

/-- C2: every MetadataStore mutation (Add or Delete) rewrites the entire
in-memory table to the durable file within the same locked operation, so
after a mutation whose file write succeeds, the on-disk table equals the
new in-memory table — which is the full updated table, not a delta. -/
theorem mutation_syncs_disk (st : MetadataStore) (img : Image) (id : String) :
    (mAdd (.ok ()) st img).2.disk = some (mAdd (.ok ()) st img).2.images ∧
    (mAdd (.ok ()) st img).2.images = upsert img.id img st.images ∧
    (mDelete (.ok ()) st id).2.disk = some (mDelete (.ok ()) st id).2.images ∧
    (mDelete (.ok ()) st id).2.images = eraseKey id st.images := by
  simp [mAdd, mDelete]

/-- C10: MetadataStore.Add enforces no identifier uniqueness: adding a
record whose identifier is already present silently overwrites the
existing record and reports success, leaving the count unchanged in that
case and incrementing it by one otherwise. -/
theorem add_overwrites_and_counts (st : MetadataStore) (img : Image) :
    (mAdd (.ok ()) st img).1 = .ok () ∧
    lookupKey img.id (mAdd (.ok ()) st img).2.images = some img ∧
    tableCount (mAdd (.ok ()) st img).2.images =
      (if (lookupKey img.id st.images).isSome then tableCount st.images
       else tableCount st.images + 1) := by
  refine ⟨rfl, ?_, ?_⟩
  · simp [mAdd, lookupKey_upsert]
  · simp [mAdd, tableCount, length_upsert]

/-- C6: MetadataStore startup load: a missing metadata file yields a
successfully constructed empty store; a file that exists but cannot be
read, or whose content fails to parse, makes construction fail. -/
theorem startup_load (parse : String → Option Table) (s : String)
    (hp : parse s = none) :
    newMetadataStore .missing parse = .ok ⟨[], none⟩ ∧
    newMetadataStore .readError parse = .error () ∧
    newMetadataStore (.content s) parse = .error () := by
  refine ⟨rfl, rfl, ?_⟩
  simp [newMetadataStore, hp]

/-- Witness for C6 at a concrete unparsable file content. -/
theorem startup_load_witness :
    (fun _ : String => (none : Option Table)) "not json" = none ∧
    newMetadataStore (.content "not json") (fun _ => none) = .error () :=
  ⟨rfl, (startup_load (fun _ => none) "not json" rfl).2.2⟩

/-- C8: EXIF orientation values 1 through 8 map respectively to identity,
horizontal flip, 180° rotation, vertical flip, transpose, 270° rotation,
transverse flip and 90° rotation; absent or unreadable EXIF data or
orientation tag leaves the image unmodified; and `Process` applies
orientation correction only to JPEG input, never to PNG or WebP. -/
theorem orientation_map (ex : Option Int) :
    fixOrientation (some 1) = .ident ∧
    fixOrientation (some 2) = .flipH ∧
    fixOrientation (some 3) = .rotate180 ∧
    fixOrientation (some 4) = .flipV ∧
    fixOrientation (some 5) = .transpose ∧
    fixOrientation (some 6) = .rotate270 ∧
    fixOrientation (some 7) = .transverse ∧
    fixOrientation (some 8) = .rotate90 ∧
    fixOrientation none = .ident ∧
    processOrientation "image/png" ex = .ident ∧
    processOrientation "image/webp" ex = .ident ∧
    processOrientation "image/jpeg" ex = fixOrientation ex := by
  refine ⟨by decide, by decide, by decide, by decide, by decide, by decide,
    by decide, by decide, by decide, ?_, ?_, ?_⟩ <;>
    simp [processOrientation, decodeFormat]

/-- C1 counterexample: a metadata-commit failure and a storage failure
are two different failure conditions, yet the caller-side classification
(the handler's substring matching over the error message, the only
inspection the returned `error` values support) assigns both the same
code `CodeStorageFailed`; no distinct MetadataFailed code exists, so the
failure kind is not carried as a distinct programmatically inspectable
kind. -/
theorem errorKinds_counterexample :
    SvcErr.metadataFailed "permission denied" ≠
      SvcErr.storageFailed "permission denied" ∧
    classifyUpload (errMessage (.metadataFailed "permission denied")) =
      classifyUpload (errMessage (.storageFailed "permission denied")) ∧
    classifyUpload (errMessage (.metadataFailed "permission denied")) =
      CodeStorageFailed := by
  decide

/-- C1 amended: the core operations return errors as message strings and
the handler classifies them by substring matching: `invalid file type` →
1001, `file too large` → 1002, `failed to process` → 1003, `failed to
save` → 1004, otherwise 500; a metadata failure's message also matches
`failed to save` and is therefore classified as StorageFailed (1004) —
there is no distinct MetadataFailed code — and NotFound is detected by
the substring `not found`. -/
theorem errorKinds_amended :
    classifyUpload (errMessage (.invalidFileType "application/octet-stream")) =
      CodeInvalidFileType ∧
    classifyUpload (errMessage (.fileTooLarge 11534336 10485760)) =
      CodeFileTooLarge ∧
    classifyUpload
        (errMessage (.processingFailed "failed to decode image: bad data")) =
      CodeProcessingFailed ∧
    classifyUpload (errMessage (.storageFailed "permission denied")) =
      CodeStorageFailed ∧
    classifyUpload (errMessage (.metadataFailed "permission denied")) =
      CodeStorageFailed ∧
    classifyLookup (errMessage (.notFound "deadbeef")) = CodeNotFound ∧
    classifyLookup (errMessage (.deleteFileFailed "permission denied")) =
      CodeInternalError := by
  decide

/-- C3: Upload sniffs the MIME type and checks the allow-list before the
size check: a disallowed sniffed type fails with InvalidFileType with the
state untouched (regardless of size, processor or storage oracles), and
an allowed type whose buffered length exceeds the configured maximum
fails with FileTooLarge, also with the state untouched. -/
theorem upload_validation_order (cfg : Config) (proc : Except String ProcResult)
    (saveRes : Except String String) (metaSave : Except String Unit)
    (compDelOk : Bool) (t : GoTime) (id : String) (data : List Nat)
    (origSize : Int) (st : SvcState) :
    (validateMimeType (detectMimeFromHeader data) cfg.allowedTypes = false →
      upload cfg proc saveRes metaSave compDelOk t id data origSize st =
        (.error (.invalidFileType (detectMimeFromHeader data)), st)) ∧
    (validateMimeType (detectMimeFromHeader data) cfg.allowedTypes = true →
      (data.length : Int) > cfg.maxSize →
      upload cfg proc saveRes metaSave compDelOk t id data origSize st =
        (.error (.fileTooLarge (data.length : Int) cfg.maxSize), st)) := by
  constructor
  · intro h
    simp [upload, h]
  · intro h1 h2
    simp [upload, h1, h2]

/-- Witness for C3: a JPEG-sniffed input against a PNG-only allow-list is
rejected as InvalidFileType, and the same input against a JPEG allow-list
with a 2-byte maximum is rejected as FileTooLarge; both leave the state
unchanged. -/
theorem upload_validation_order_witness :
    upload ⟨["image/png"], 100⟩ (.ok ⟨[7], 1, 1⟩) (.ok "u") (.ok ()) true
        ⟨2024, 12, 0⟩ "id" [0xFF, 0xD8, 0xFF, 0x00] 4 ⟨⟨[], none⟩, []⟩ =
      (.error (.invalidFileType "image/jpeg"), ⟨⟨[], none⟩, []⟩) ∧
    upload ⟨["image/jpeg"], 2⟩ (.ok ⟨[7], 1, 1⟩) (.ok "u") (.ok ()) true
        ⟨2024, 12, 0⟩ "id" [0xFF, 0xD8, 0xFF, 0x00] 4 ⟨⟨[], none⟩, []⟩ =
      (.error (.fileTooLarge 4 2), ⟨⟨[], none⟩, []⟩) :=
  ⟨(upload_validation_order ⟨["image/png"], 100⟩ (.ok ⟨[7], 1, 1⟩) (.ok "u")
      (.ok ()) true ⟨2024, 12, 0⟩ "id" [0xFF, 0xD8, 0xFF, 0x00] 4
      ⟨⟨[], none⟩, []⟩).1 (by decide),
   (upload_validation_order ⟨["image/jpeg"], 2⟩ (.ok ⟨[7], 1, 1⟩) (.ok "u")
      (.ok ()) true ⟨2024, 12, 0⟩ "id" [0xFF, 0xD8, 0xFF, 0x00] 4
      ⟨⟨[], none⟩, []⟩).2 (by decide) (by decide)⟩

/-- C9: any input of fewer than 4 bytes sniffs as
`application/octet-stream`, and when every entry of the allow-list is an
image MIME type (first six characters `image/`), Upload rejects it with
InvalidFileType with the state untouched, for every processor and
storage oracle — so no decode is ever attempted. -/
theorem shortInput_rejected (cfg : Config) (data : List Nat)
    (h4 : data.length < 4)
    (himg : ∀ t ∈ cfg.allowedTypes, t.take 6 = "image/") :
    detectMimeFromHeader data = "application/octet-stream" ∧
    ∀ (proc : Except String ProcResult) (saveRes : Except String String)
      (metaSave : Except String Unit) (compDelOk : Bool) (t : GoTime)
      (id : String) (origSize : Int) (st : SvcState),
      upload cfg proc saveRes metaSave compDelOk t id data origSize st =
        (.error (.invalidFileType "application/octet-stream"), st) := by
  have hd : detectMimeFromHeader data = "application/octet-stream" := by
    unfold detectMimeFromHeader
    rw [if_pos h4]
  refine ⟨hd, ?_⟩
  intro proc saveRes metaSave compDelOk t id origSize st
  have hv : validateMimeType "application/octet-stream" cfg.allowedTypes =
      false := by
    unfold validateMimeType
    rw [List.any_eq_false]
    intro x hx
    have hxi := himg x hx
    simp only [decide_eq_true_eq]
    intro heq
    rw [heq] at hxi
    exact absurd hxi (by decide)
  simp [upload, hv, hd]

/-- Witness for C9: the empty input against the default allow-list. -/
theorem shortInput_rejected_witness :
    ([] : List Nat).length < 4 ∧
    (∀ t ∈ ["image/jpeg", "image/png", "image/webp"], t.take 6 = "image/") ∧
    upload ⟨["image/jpeg", "image/png", "image/webp"], 10485760⟩
        (.ok ⟨[7], 1, 1⟩) (.ok "u") (.ok ()) true ⟨2024, 12, 0⟩ "id" [] 0
        ⟨⟨[], none⟩, []⟩ =
      (.error (.invalidFileType "application/octet-stream"), ⟨⟨[], none⟩, []⟩) :=
  ⟨by decide, by decide,
    (shortInput_rejected ⟨["image/jpeg", "image/png", "image/webp"], 10485760⟩
      [] (by decide) (by decide)).2 (.ok ⟨[7], 1, 1⟩) (.ok "u") (.ok ()) true
      ⟨2024, 12, 0⟩ "id" 0 ⟨⟨[], none⟩, []⟩⟩

/-- C4: when the metadata Add fails after Storage.Save succeeded, Upload
fails with MetadataFailed regardless of whether the compensating delete
succeeds (its failure is not surfaced), and the just-saved storage
object is removed again when the compensating delete succeeds and left
behind when it fails. -/
theorem upload_compensation (cfg : Config) (r : ProcResult) (url : String)
    (e : String) (compDelOk : Bool) (t : GoTime) (id : String)
    (data : List Nat) (origSize : Int) (st : SvcState)
    (hm : validateMimeType (detectMimeFromHeader data) cfg.allowedTypes = true)
    (hs : (data.length : Int) ≤ cfg.maxSize) :
    (upload cfg (.ok r) (.ok url) (.error e) compDelOk t id data origSize
        st).1 = .error (.metadataFailed e) ∧
    (upload cfg (.ok r) (.ok url) (.error e) true t id data origSize
        st).2.stor = st.stor ∧
    (upload cfg (.ok r) (.ok url) (.error e) false t id data origSize
        st).2.stor =
      (storagePathOf t (id ++ ".webp"), r.data) :: st.stor := by
  have hs2 : ¬((data.length : Int) > cfg.maxSize) := not_lt.mpr hs
  refine ⟨?_, ?_, ?_⟩ <;> simp [upload, hm, hs2, mAdd, removeFirst]

/-- Witness for C4 at a concrete JPEG input whose metadata commit fails. -/
theorem upload_compensation_witness :
    validateMimeType (detectMimeFromHeader [0xFF, 0xD8, 0xFF, 0x00])
      ["image/jpeg"] = true ∧
    (([0xFF, 0xD8, 0xFF, 0x00] : List Nat).length : Int) ≤ 100 ∧
    (upload ⟨["image/jpeg"], 100⟩ (.ok ⟨[7], 1, 1⟩) (.ok "u") (.error "disk full")
        true ⟨2024, 12, 0⟩ "id" [0xFF, 0xD8, 0xFF, 0x00] 4
        ⟨⟨[], none⟩, []⟩).1 = .error (.metadataFailed "disk full") ∧
    (upload ⟨["image/jpeg"], 100⟩ (.ok ⟨[7], 1, 1⟩) (.ok "u") (.error "disk full")
        true ⟨2024, 12, 0⟩ "id" [0xFF, 0xD8, 0xFF, 0x00] 4
        ⟨⟨[], none⟩, []⟩).2.stor = [] ∧
    (upload ⟨["image/jpeg"], 100⟩ (.ok ⟨[7], 1, 1⟩) (.ok "u") (.error "disk full")
        false ⟨2024, 12, 0⟩ "id" [0xFF, 0xD8, 0xFF, 0x00] 4
        ⟨⟨[], none⟩, []⟩).2.stor = [("2024/12/id.webp", [7])] :=
  ⟨by decide, by decide,
   (upload_compensation ⟨["image/jpeg"], 100⟩ ⟨[7], 1, 1⟩ "u" "disk full" true
      ⟨2024, 12, 0⟩ "id" [0xFF, 0xD8, 0xFF, 0x00] 4 ⟨⟨[], none⟩, []⟩
      (by decide) (by decide)).1,
   (upload_compensation ⟨["image/jpeg"], 100⟩ ⟨[7], 1, 1⟩ "u" "disk full" true
      ⟨2024, 12, 0⟩ "id" [0xFF, 0xD8, 0xFF, 0x00] 4 ⟨⟨[], none⟩, []⟩
      (by decide) (by decide)).2.1,
   (upload_compensation ⟨["image/jpeg"], 100⟩ ⟨[7], 1, 1⟩ "u" "disk full" false
      ⟨2024, 12, 0⟩ "id" [0xFF, 0xD8, 0xFF, 0x00] 4 ⟨⟨[], none⟩, []⟩
      (by decide) (by decide)).2.2⟩

/-- C5: DeleteImage on an existing record: when the resolved storage key
is empty or lacks a recognized image extension, only the metadata record
is deleted, storage deletion is skipped (for every storage oracle) and
the operation succeeds; otherwise a storage error other than not-exist
fails the whole operation with all state untouched, while success or an
already-absent object proceeds to delete the storage entry and then the
metadata record. -/
theorem deleteImage_behavior (sdel : Option StorDelErr)
    (msave : Except String Unit) (e : String) (id : String) (st : SvcState)
    (img : Image) (hlook : lookupKey id st.meta.images = some img) :
    (skipStorageDelete (resolvedKey img) = true →
      deleteImage sdel (.ok ()) id st =
        (.ok (), ⟨⟨eraseKey id st.meta.images,
          some (eraseKey id st.meta.images)⟩, st.stor⟩)) ∧
    (skipStorageDelete (resolvedKey img) = false →
      deleteImage (some (.other e)) msave id st =
        (.error (.deleteFileFailed e), st) ∧
      deleteImage none (.ok ()) id st =
        (.ok (), ⟨⟨eraseKey id st.meta.images,
          some (eraseKey id st.meta.images)⟩,
          removeFirst (resolvedKey img) st.stor⟩) ∧
      deleteImage (some .notExist) (.ok ()) id st =
        (.ok (), ⟨⟨eraseKey id st.meta.images,
          some (eraseKey id st.meta.images)⟩,
          removeFirst (resolvedKey img) st.stor⟩)) := by
  constructor
  · intro h
    simp [deleteImage, hlook, h, mDelete]
  · intro h
    refine ⟨?_, ?_, ?_⟩ <;> simp [deleteImage, hlook, h, mDelete]

/-- Witness for C5: an orphan record (unresolvable key) is deleted from
metadata only, even when the storage oracle would fail; a record with a
valid key fails wholesale on a storage error with the record kept, and
succeeds end-to-end when storage deletion succeeds. -/
theorem deleteImage_behavior_witness :
    deleteImage (some (.other "boom")) (.ok ()) "b"
        ⟨⟨[("b", orphanImage)], some [("b", orphanImage)]⟩, [("k", [1])]⟩ =
      (.ok (), ⟨⟨[], some []⟩, [("k", [1])]⟩) ∧
    deleteImage (some (.other "boom")) (.ok ()) "a"
        ⟨⟨[("a", sampleImage)], some [("a", sampleImage)]⟩,
          [(sampleImage.storagePath, [9])]⟩ =
      (.error (.deleteFileFailed "boom"),
        ⟨⟨[("a", sampleImage)], some [("a", sampleImage)]⟩,
          [(sampleImage.storagePath, [9])]⟩) ∧
    deleteImage none (.ok ()) "a"
        ⟨⟨[("a", sampleImage)], some [("a", sampleImage)]⟩,
          [(sampleImage.storagePath, [9])]⟩ =
      (.ok (), ⟨⟨[], some []⟩, []⟩) :=
  ⟨(deleteImage_behavior (some (.other "boom")) (.ok ()) "x" "b"
      ⟨⟨[("b", orphanImage)], some [("b", orphanImage)]⟩, [("k", [1])]⟩
      orphanImage (by decide)).1 (by decide),
   ((deleteImage_behavior (some (.other "boom")) (.ok ()) "boom" "a"
      ⟨⟨[("a", sampleImage)], some [("a", sampleImage)]⟩,
        [(sampleImage.storagePath, [9])]⟩
      sampleImage (by decide)).2 (by decide)).1,
   (((deleteImage_behavior (some (.other "boom")) (.ok ()) "boom" "a"
      ⟨⟨[("a", sampleImage)], some [("a", sampleImage)]⟩,
        [(sampleImage.storagePath, [9])]⟩
      sampleImage (by decide)).2 (by decide)).2).1⟩

/-- C7 counterexample: with one stored record, page `10^18` (accepted by
the handler's `strconv.Atoi`) and pageSize 10, the slice start
`(page-1)*pageSize` overflows 64-bit `int` to a negative value and the
slice expression panics, instead of returning the claimed empty window
with its counters. -/
theorem listImages_overflow_counterexample :
    listImages [sampleImage] 1000000000000000000 10 = none := by decide

/-- C7 amended: ListImages clamps page to at least 1 and replaces a
pageSize outside `[1,100]` by 20; provided the clamped slice start plus
pageSize does not overflow a 64-bit int, it returns the half-open window
`[(page-1)*pageSize, min(page*pageSize, total))` of the time-descending
full list together with total count, page, pageSize and
`totalPages = ceil(total/pageSize)`; for larger pages the computation
wraps negative and the slice expression panics. -/
theorem listImages_window (L : List Image) (page pageSize : Int)
    (hov : (clampPage page - 1) * clampSize pageSize + clampSize pageSize <
      2 ^ 63) :
    listImages L page pageSize =
      some
        { items :=
            ((L.drop ((clampPage page - 1) * clampSize pageSize).toNat).take
              (clampSize pageSize).toNat).map toListItem
          total := (L.length : Int)
          page := clampPage page
          pageSize := clampSize pageSize
          totalPages :=
            ((L.length + (clampSize pageSize).toNat - 1) /
              (clampSize pageSize).toNat : Nat) } := by
  have h1 : listImages L page pageSize =
      listImages L (clampPage page) (clampSize pageSize) := by
    unfold listImages
    rw [clampPage_idem, clampSize_idem]
  rw [h1]
  exact listImages_window_aux L _ _ (clampPage_idem page)
    (clampSize_idem pageSize) (clampPage_ge page)
    (clampSize_bounds pageSize).1 hov

/-- Witness for C7 (amended): the claim's own example — 25 records with
pageSize 10: page 1 yields records 0..9, page 3 yields records 20..24,
and totalPages is 3. -/
theorem listImages_window_witness :
    ((clampPage 3 - 1) * clampSize 10 + clampSize 10 < 2 ^ 63) ∧
    listImages (List.replicate 25 sampleImage) 3 10 =
      some ⟨List.replicate 5 (toListItem sampleImage), 25, 3, 10, 3⟩ ∧
    listImages (List.replicate 25 sampleImage) 1 10 =
      some ⟨List.replicate 10 (toListItem sampleImage), 25, 1, 10, 3⟩ :=
  ⟨by decide,
   (listImages_window (List.replicate 25 sampleImage) 3 10 (by decide)).trans
     (by decide),
   (listImages_window (List.replicate 25 sampleImage) 1 10 (by decide)).trans
     (by decide)⟩

end GoImage
